import Mathlib

/-!
Verification development for the sleeper-model-lite Sankey flow solver.

The expression/constraint evaluator is embedded from `src/expressions.js`.
The balance solver (`balance.js`), verifier (`verification.js`) and
orchestrator (`solver.js`) are absent from the repository snapshot (only
their test suites, README pseudocode and module documentation are present),
so those are modelled from the specification, checked against the
repository's own tests.

Numeric values are modelled as JavaScript numbers abstracted to exact
rationals extended with the IEEE special values `Infinity`, `-Infinity`
and `NaN` (type `JsNum`); rounding of doubles is not modelled.
-/

namespace Sleeper

/-- Kernel-computable rational addition (the library operation is
irreducible, which would block evaluation of concrete runs). -/
def ratAdd (a b : Rat) : Rat :=
  mkRat (a.num * b.den + b.num * a.den) (a.den * b.den)

/-- Kernel-computable rational multiplication. -/
def ratMul (a b : Rat) : Rat :=
  mkRat (a.num * b.num) (a.den * b.den)

/-- Kernel-computable rational division. -/
def ratDiv (a b : Rat) : Rat :=
  if 0 ≤ b.num then mkRat (a.num * b.den) (a.den * b.num.toNat)
  else mkRat (-(a.num * b.den)) (a.den * (-b.num).toNat)

/-- `ratAdd` agrees with rational addition. -/
theorem ratAdd_eq (a b : Rat) : ratAdd a b = a + b := by
  rw [ratAdd, Rat.add_def, Rat.normalize_eq_mkRat]

/-- `ratMul` agrees with rational multiplication. -/
theorem ratMul_eq (a b : Rat) : ratMul a b = a * b := by
  rw [ratMul, Rat.mul_def, Rat.normalize_eq_mkRat]

/-- `ratDiv` agrees with rational division. -/
theorem ratDiv_eq (a b : Rat) : ratDiv a b = a / b := by
  rw [ratDiv, Rat.div_def']
  by_cases hb : 0 ≤ b.num
  · rw [if_pos hb, Rat.mkRat_eq_divInt]
    congr 1
    push_cast [Int.toNat_of_nonneg hb]
    ring
  · rw [if_neg hb, Rat.mkRat_eq_divInt]
    have h1 : ((a.den * (-b.num).toNat : Nat) : Int) = -(a.den * b.num) := by
      push_cast [Int.toNat_of_nonneg (by omega : (0:Int) ≤ -b.num)]
      ring
    rw [h1, Rat.divInt_neg, Int.neg_neg]

/-- JavaScript number abstracted: exact rational, or an IEEE special value. -/
inductive JsNum where
  | num (q : Rat)
  | posInf
  | negInf
  | nan
deriving DecidableEq, Repr

namespace JsNum

/-- JS unary negation. -/
def neg : JsNum → JsNum
  | num q => num (-q)
  | posInf => negInf
  | negInf => posInf
  | nan => nan

/-- JS addition (`+`) on numbers. -/
def add : JsNum → JsNum → JsNum
  | num a, num b => num (ratAdd a b)
  | nan, _ => nan
  | _, nan => nan
  | num _, posInf => posInf
  | num _, negInf => negInf
  | posInf, num _ => posInf
  | negInf, num _ => negInf
  | posInf, posInf => posInf
  | negInf, negInf => negInf
  | posInf, negInf => nan
  | negInf, posInf => nan

/-- JS subtraction (`-`): `a - b = a + (-b)`. -/
def sub (a b : JsNum) : JsNum := add a (neg b)

/-- JS multiplication (`*`) on numbers. -/
def mul : JsNum → JsNum → JsNum
  | num a, num b => num (ratMul a b)
  | nan, _ => nan
  | _, nan => nan
  | num a, posInf => if 0 < a then posInf else if a < 0 then negInf else nan
  | num a, negInf => if 0 < a then negInf else if a < 0 then posInf else nan
  | posInf, num b => if 0 < b then posInf else if b < 0 then negInf else nan
  | negInf, num b => if 0 < b then negInf else if b < 0 then posInf else nan
  | posInf, posInf => posInf
  | negInf, negInf => posInf
  | posInf, negInf => negInf
  | negInf, posInf => negInf

/-- JS division (`/`) on numbers; division by zero yields an infinity or
`NaN` instead of failing (signed zero is not modelled). -/
def div : JsNum → JsNum → JsNum
  | num a, num b =>
    if b = 0 then (if 0 < a then posInf else if a < 0 then negInf else nan)
    else num (ratDiv a b)
  | nan, _ => nan
  | _, nan => nan
  | num _, posInf => num 0
  | num _, negInf => num 0
  | posInf, num b => if 0 ≤ b then posInf else negInf
  | negInf, num b => if 0 ≤ b then negInf else posInf
  | posInf, posInf => nan
  | posInf, negInf => nan
  | negInf, posInf => nan
  | negInf, negInf => nan

end JsNum

/-- The defined-flow map: flow id to its current value, as an ordered
key-value list mirroring a JS object (insertion order, unique keys). -/
abbrev FlowMap := List (String × JsNum)

/-- First-match lookup in a key-value list (JS property read). -/
def lookupFlow : FlowMap → String → Option JsNum
  | [], _ => none
  | (k, v) :: rest, id => if k = id then some v else lookupFlow rest id

/-- JS object update `{ ...m, [k]: v }`: an existing key keeps its position
and receives the new value; a new key is appended. -/
def setKey : FlowMap → String → JsNum → FlowMap
  | [], k, v => [(k, v)]
  | (k', v') :: rest, k, v =>
    if k' = k then (k', v) :: rest else (k', v') :: setKey rest k v

/-- A node of the topology: only the id matters for solving. -/
structure Node where
  id : String
deriving DecidableEq, Repr

/-- A directed flow of the topology, `{ id, from, to }`. -/
structure Flow where
  id : String
  «from» : String
  «to» : String
deriving DecidableEq, Repr

/-! ## Balance solver

`balance.js` is absent from the repository snapshot; the definitions below
are modelled from the specification (§4.2), the README pseudocode and the
expectations of `src/balance.test.js`. -/

/-- Modelled from the spec: `getNodeFlows(node, flows)` of the missing
`balance.js` partitions the flow list into inputs (`to` = node id) and
outputs (`from` = node id), preserving list order. -/
def getNodeFlows (node : Node) (flows : List Flow) : List Flow × List Flow :=
  (flows.filter (fun f => f.«to» = node.id),
   flows.filter (fun f => f.«from» = node.id))

/-- Modelled from the spec: `isSourceOrSink(inputs, outputs)` of the missing
`balance.js` is true iff the node has no inputs or no outputs. -/
def isSourceOrSink (inputs outputs : List Flow) : Bool :=
  inputs.isEmpty || outputs.isEmpty

/-- Modelled from the spec: `getUndefinedFlows(flows, definedFlows)` of the
missing `balance.js` keeps the flows whose id is not a key of the map. -/
def getUndefinedFlows (flows : List Flow) (definedFlows : FlowMap) : List Flow :=
  flows.filter (fun f => (lookupFlow definedFlows f.id).isNone)

/-- Modelled from the spec: `sumDefinedFlows(flows, definedFlows)` of the
missing `balance.js` sums the values of the flows that are defined. -/
def sumDefinedFlows (flows : List Flow) (definedFlows : FlowMap) : JsNum :=
  (flows.filterMap (fun f => lookupFlow definedFlows f.id)).foldl
    JsNum.add (JsNum.num 0)

/-- A solved flow produced by `solveNodeBalance`. -/
structure Solution where
  flowId : String
  value : JsNum
deriving DecidableEq, Repr

/-- Modelled from the spec: `solveNodeBalance(node, flows, definedFlows)` of
the missing `balance.js`. Null for a source/sink; otherwise solvable only
when exactly one incident flow is undefined, by conservation of flow. -/
def solveNodeBalance (node : Node) (flows : List Flow)
    (definedFlows : FlowMap) : Option Solution :=
  if isSourceOrSink (getNodeFlows node flows).1 (getNodeFlows node flows).2
  then none
  else
    match getUndefinedFlows (getNodeFlows node flows).1 definedFlows,
          getUndefinedFlows (getNodeFlows node flows).2 definedFlows with
    | [f], [] =>
      some ⟨f.id,
        JsNum.sub (sumDefinedFlows (getNodeFlows node flows).2 definedFlows)
                  (sumDefinedFlows (getNodeFlows node flows).1 definedFlows)⟩
    | [], [f] =>
      some ⟨f.id,
        JsNum.sub (sumDefinedFlows (getNodeFlows node flows).1 definedFlows)
                  (sumDefinedFlows (getNodeFlows node flows).2 definedFlows)⟩
    | _, _ => none

/-- Modelled from the spec: `solveIteration(nodes, flows, definedFlows)` of
the missing `balance.js` visits the nodes once in the given order and merges
every non-null `solveNodeBalance` result into a running copy of the map.
The spec (§4.2) describes within-pass sequential propagation, but the
repository's own test (`balance.test.js`, `should respect max iterations
limit`) requires that one pass on the chain `A→B→C→D` starting from
`{ab:100}` leaves `cd` undefined, so each node's balance is computed against
the map as it stood at the start of the pass. -/
def solveIteration (nodes : List Node) (flows : List Flow)
    (definedFlows : FlowMap) : FlowMap × Bool :=
  nodes.foldl
    (fun acc node =>
      match solveNodeBalance node flows definedFlows with
      | some s => (setKey acc.1 s.flowId s.value, true)
      | none => acc)
    (definedFlows, false)

/-- Sequential-propagation variant of `solveIteration`, following the words
of the specification (§4.2): later nodes in the same pass see values solved
by earlier nodes in that pass. Stated for comparison with `solveIteration`. -/
def solveIterationSeq (nodes : List Node) (flows : List Flow)
    (definedFlows : FlowMap) : FlowMap × Bool :=
  nodes.foldl
    (fun acc node =>
      match solveNodeBalance node flows acc.1 with
      | some s => (setKey acc.1 s.flowId s.value, true)
      | none => acc)
    (definedFlows, false)

/-- Modelled from the spec: `solveIteratively(nodes, flows, definedFlows,
maxIterations)` of the missing `balance.js` repeats `solveIteration` until a
pass produces no change or `maxIterations` passes have run. -/
def solveIteratively (nodes : List Node) (flows : List Flow) :
    FlowMap → Nat → FlowMap
  | definedFlows, 0 => definedFlows
  | definedFlows, maxIterations + 1 =>
    let r := solveIteration nodes flows definedFlows
    if r.2 then solveIteratively nodes flows r.1 maxIterations else r.1

/-! ## Verifier

`verification.js` is absent from the repository snapshot; the definitions
below are modelled from the specification (§4.3) and
`src/verification.test.js`. -/

/-- Tolerance for balance verification (`1e-4`). -/
def epsilon : Rat := mkRat 1 10000

/-- Absolute-value comparison used by the verifier: true iff the value is a
finite number within the tolerance (`NaN`/infinite differences are never
within tolerance). -/
def withinTolerance : JsNum → Bool
  | JsNum.num q => |q| ≤ epsilon
  | _ => false

/-- A balance violation record. -/
structure Violation where
  node : String
  sumInputs : JsNum
  sumOutputs : JsNum
  difference : JsNum
deriving DecidableEq, Repr

/-- Modelled from the spec: `verifyNodeBalance(node, flows, definedFlows)` of
the missing `verification.js`. Null for a source/sink or when any incident
flow is undefined; otherwise a violation record unless
`|sumInputs - sumOutputs| ≤ 1e-4`. -/
def verifyNodeBalance (node : Node) (flows : List Flow)
    (definedFlows : FlowMap) : Option Violation :=
  if isSourceOrSink (getNodeFlows node flows).1 (getNodeFlows node flows).2
  then none
  else if !(getUndefinedFlows (getNodeFlows node flows).1 definedFlows).isEmpty
       || !(getUndefinedFlows (getNodeFlows node flows).2 definedFlows).isEmpty
  then none
  else if withinTolerance
    (JsNum.sub (sumDefinedFlows (getNodeFlows node flows).1 definedFlows)
               (sumDefinedFlows (getNodeFlows node flows).2 definedFlows))
  then none
  else some ⟨node.id,
    sumDefinedFlows (getNodeFlows node flows).1 definedFlows,
    sumDefinedFlows (getNodeFlows node flows).2 definedFlows,
    JsNum.sub (sumDefinedFlows (getNodeFlows node flows).1 definedFlows)
              (sumDefinedFlows (getNodeFlows node flows).2 definedFlows)⟩

/-- Modelled from the spec: `verifyBalance(nodes, flows, definedFlows)` of
the missing `verification.js` collects the non-null per-node violations in
topology node order. -/
def verifyBalance (nodes : List Node) (flows : List Flow)
    (definedFlows : FlowMap) : List Violation :=
  nodes.filterMap (fun n => verifyNodeBalance n flows definedFlows)

/-- Modelled from the spec: `isFullySolved(flows, definedFlows)` of the
missing `verification.js` is true iff every topology flow id is defined. -/
def isFullySolved (flows : List Flow) (definedFlows : FlowMap) : Bool :=
  flows.all (fun f => (lookupFlow definedFlows f.id).isSome)

/-- Modelled from the spec: `getUndeterminedFlowIds(flows, definedFlows)` of
the missing `verification.js` lists undefined flow ids in topology order. -/
def getUndeterminedFlowIds (flows : List Flow) (definedFlows : FlowMap) :
    List String :=
  (flows.filter (fun f => (lookupFlow definedFlows f.id).isNone)).map
    (fun f => f.id)

/-! ## Expression evaluator

Embedded from `src/expressions.js`. The source substitutes
`parameters.<name>` and then `flows.<id>` references into the expression
string and hands the result to the host-language `eval`. The host `eval` is
external, so its arithmetic fragment is modelled from the spec (§4.1, §9):
`+ - * /` with standard precedence, unary sign, parentheses and numeric
literals; any other content makes evaluation fail. Substitution is modelled
at token level: the regexes `parameters\.(\w+)` and `flows\.(\w+)` become
reference tokens resolved against the same maps, in the same order
(all parameters first, then all flows). -/

/-- A character the regex class `\w` matches. -/
def isWordChar (c : Char) : Bool := c.isAlphanum || c = '_'

/-- Numeric value of a digit string. -/
def digitsVal (ds : List Char) : Nat :=
  ds.foldl (fun n c => 10 * n + (c.toNat - 48)) 0

/-- Rational value of an integer digit part and a fractional digit part. -/
def ratOfDigits (intPart fracPart : List Char) : Rat :=
  mkRat (digitsVal intPart * 10 ^ fracPart.length + digitsVal fracPart)
    (10 ^ fracPart.length)

/-- Token of the (substituted) expression language. -/
inductive Tok where
  | num (v : JsNum)
  | pRef (name : String)
  | fRef (name : String)
  | plus
  | minus
  | star
  | slash
  | lpar
  | rpar
  | bad
deriving DecidableEq, Repr

/-- Tokenizer worker over the character list, fuel-bounded (each step
consumes at least one character, so `length + 1` fuel suffices). -/
def tokenizeAux : Nat → List Char → List Tok
  | 0, _ => [Tok.bad]
  | _ + 1, [] => []
  | fuel + 1, c :: cs =>
    if c.isWhitespace then tokenizeAux fuel cs
    else if c = '+' then Tok.plus :: tokenizeAux fuel cs
    else if c = '-' then Tok.minus :: tokenizeAux fuel cs
    else if c = '*' then Tok.star :: tokenizeAux fuel cs
    else if c = '/' then Tok.slash :: tokenizeAux fuel cs
    else if c = '(' then Tok.lpar :: tokenizeAux fuel cs
    else if c = ')' then Tok.rpar :: tokenizeAux fuel cs
    else if c.isDigit then
      let p := (c :: cs).span Char.isDigit
      match p.2 with
      | '.' :: r2 =>
        let q := r2.span Char.isDigit
        Tok.num (JsNum.num (ratOfDigits p.1 q.1)) :: tokenizeAux fuel q.2
      | rest => Tok.num (JsNum.num (ratOfDigits p.1 [])) :: tokenizeAux fuel rest
    else if isWordChar c then
      let p := (c :: cs).span isWordChar
      let word := String.mk p.1
      if word = "parameters" then
        match p.2 with
        | '.' :: r2 =>
          let q := r2.span isWordChar
          if q.1.isEmpty then Tok.bad :: tokenizeAux fuel p.2
          else Tok.pRef (String.mk q.1) :: tokenizeAux fuel q.2
        | rest => Tok.bad :: tokenizeAux fuel rest
      else if word = "flows" then
        match p.2 with
        | '.' :: r2 =>
          let q := r2.span isWordChar
          if q.1.isEmpty then Tok.bad :: tokenizeAux fuel p.2
          else Tok.fRef (String.mk q.1) :: tokenizeAux fuel q.2
        | rest => Tok.bad :: tokenizeAux fuel rest
      else Tok.bad :: tokenizeAux fuel p.2
    else Tok.bad :: tokenizeAux fuel cs

/-- Tokenize an expression string. -/
def tokenize (s : String) : List Tok :=
  tokenizeAux (s.data.length + 1) s.data

/-- Substitute every `parameters.<name>` token, failing like the source on a
name absent from the parameter map. -/
def substParams (parameters : FlowMap) : List Tok → Except String (List Tok)
  | [] => Except.ok []
  | Tok.pRef n :: ts =>
    match lookupFlow parameters n with
    | none => Except.error ("Unknown parameter: " ++ n)
    | some v => (substParams parameters ts).map (fun r => Tok.num v :: r)
  | t :: ts => (substParams parameters ts).map (fun r => t :: r)

/-- Substitute every `flows.<id>` token, failing like the source on an id
absent from the defined-flow map. -/
def substFlows (definedFlows : FlowMap) : List Tok → Except String (List Tok)
  | [] => Except.ok []
  | Tok.fRef n :: ts =>
    match lookupFlow definedFlows n with
    | none => Except.error ("Flow " ++ n ++ " not yet defined")
    | some v => (substFlows definedFlows ts).map (fun r => Tok.num v :: r)
  | t :: ts => (substFlows definedFlows ts).map (fun r => t :: r)

mutual

/-- Additive level of the modelled arithmetic `eval`: a term followed by
`+`/`-` continuations. -/
def parseE : Nat → List Tok → Option (JsNum × List Tok)
  | 0, _ => none
  | n + 1, ts =>
    match parseT n ts with
    | none => none
    | some (v, rest) => parseESuf n v rest

/-- `+`/`-` continuation of the additive level. -/
def parseESuf : Nat → JsNum → List Tok → Option (JsNum × List Tok)
  | 0, _, _ => none
  | n + 1, v, Tok.plus :: ts =>
    match parseT n ts with
    | none => none
    | some (w, rest) => parseESuf n (JsNum.add v w) rest
  | n + 1, v, Tok.minus :: ts =>
    match parseT n ts with
    | none => none
    | some (w, rest) => parseESuf n (JsNum.sub v w) rest
  | _ + 1, v, ts => some (v, ts)

/-- Multiplicative level: a factor followed by `*`/`/` continuations. -/
def parseT : Nat → List Tok → Option (JsNum × List Tok)
  | 0, _ => none
  | n + 1, ts =>
    match parseF n ts with
    | none => none
    | some (v, rest) => parseTSuf n v rest

/-- `*`/`/` continuation of the multiplicative level. -/
def parseTSuf : Nat → JsNum → List Tok → Option (JsNum × List Tok)
  | 0, _, _ => none
  | n + 1, v, Tok.star :: ts =>
    match parseF n ts with
    | none => none
    | some (w, rest) => parseTSuf n (JsNum.mul v w) rest
  | n + 1, v, Tok.slash :: ts =>
    match parseF n ts with
    | none => none
    | some (w, rest) => parseTSuf n (JsNum.div v w) rest
  | _ + 1, v, ts => some (v, ts)

/-- Factor: numeric literal, parenthesised expression, or unary sign. -/
def parseF : Nat → List Tok → Option (JsNum × List Tok)
  | 0, _ => none
  | _ + 1, Tok.num v :: ts => some (v, ts)
  | n + 1, Tok.minus :: ts =>
    match parseF n ts with
    | none => none
    | some (v, rest) => some (JsNum.neg v, rest)
  | n + 1, Tok.plus :: ts => parseF n ts
  | n + 1, Tok.lpar :: ts =>
    match parseE n ts with
    | some (v, Tok.rpar :: rest) => some (v, rest)
    | _ => none
  | _ + 1, _ => none

end

/-- Modelled arithmetic `eval` over a fully substituted token list: the
value of the whole list, or `none` when it is not a complete arithmetic
expression. -/
def evalToks (ts : List Tok) : Option JsNum :=
  match parseE (4 * ts.length + 4) ts with
  | some (v, []) => some v
  | _ => none

/-- `evaluateExpression(expr, parameters, definedFlows)` from
`src/expressions.js`: substitute parameters, then flows, then evaluate; a
failed evaluation raises `Cannot evaluate expression: <expr>`. -/
def evaluateExpression (expr : String) (parameters definedFlows : FlowMap) :
    Except String JsNum :=
  match substParams parameters (tokenize expr) with
  | Except.error m => Except.error m
  | Except.ok ts1 =>
    match substFlows definedFlows ts1 with
    | Except.error m => Except.error m
    | Except.ok ts2 =>
      match evalToks ts2 with
      | some v => Except.ok v
      | none => Except.error ("Cannot evaluate expression: " ++ expr)

/-- JS-style whitespace trim of both ends. -/
def trimStr (s : String) : String :=
  String.mk (((s.data.dropWhile Char.isWhitespace).reverse.dropWhile
    Char.isWhitespace).reverse)

/-- Splitting on the literal separator `==`, as `constraint.split("==")`. -/
def splitOnEqEq : List Char → List Char → List String
  | [], cur => [String.mk cur.reverse]
  | '=' :: '=' :: rest, cur => String.mk cur.reverse :: splitOnEqEq rest []
  | c :: rest, cur => splitOnEqEq rest (c :: cur)

/-- `parseConstraint(constraint)` from `src/expressions.js`: split on `==`,
trim both sides, fail unless there are exactly two parts. -/
def parseConstraint (constraint : String) :
    Except String (String × String) :=
  match (splitOnEqEq constraint.data []).map trimStr with
  | [l, r] => Except.ok (l, r)
  | _ => Except.error "Constraint must contain exactly one =="

/-- The anchored regex `^flows\.(\w+)$` of `src/expressions.js`: the whole
string must be `flows.` followed by one or more word characters; returns the
captured id. -/
def matchFlowRef (s : String) : Option String :=
  match s.data with
  | 'f' :: 'l' :: 'o' :: 'w' :: 's' :: '.' :: rest =>
    if rest.isEmpty then none
    else if rest.all isWordChar then some (String.mk rest) else none
  | _ => none

/-- `evaluateConstraint(constraint, parameters, definedFlows)` from
`src/expressions.js`: parse, require the left side to be a bare flow
reference, evaluate the right side, and return the map with the new
binding (a fresh copy; the input map is not mutated). -/
def evaluateConstraint (constraint : String)
    (parameters definedFlows : FlowMap) : Except String FlowMap :=
  match parseConstraint constraint with
  | Except.error m => Except.error m
  | Except.ok (leftExpr, rightExpr) =>
    match matchFlowRef leftExpr with
    | none =>
      Except.error "Left side of constraint must be a flow reference (flows.id)"
    | some flowId =>
      match evaluateExpression rightExpr parameters definedFlows with
      | Except.error m => Except.error m
      | Except.ok value => Except.ok (setKey definedFlows flowId value)

/-- One step of the constraint fold of `evaluateAllConstraints`: evaluate
the constraint, wrapping any failure with its literal text. -/
def constraintStep (parameters : FlowMap) (definedFlows : FlowMap)
    (constraint : String) : Except String FlowMap :=
  match evaluateConstraint constraint parameters definedFlows with
  | Except.ok r => Except.ok r
  | Except.error m =>
    Except.error ("Error evaluating constraint \"" ++ constraint ++ "\": " ++ m)

/-- The fold of `evaluateAllConstraints` threading the growing map. -/
def evalConstraintList (parameters : FlowMap) :
    FlowMap → List String → Except String FlowMap
  | definedFlows, [] => Except.ok definedFlows
  | definedFlows, c :: rest =>
    match constraintStep parameters definedFlows c with
    | Except.ok df => evalConstraintList parameters df rest
    | Except.error m => Except.error m

/-- `evaluateAllConstraints(constraints, parameters)` from
`src/expressions.js`: fold the constraints in order from an empty map. -/
def evaluateAllConstraints (constraints : List String)
    (parameters : FlowMap) : Except String FlowMap :=
  evalConstraintList parameters [] constraints

/-! ## Orchestrator

`solver.js` is absent from the repository snapshot; `solve` is modelled
from the specification (§4.4) and the integration tests. -/

/-- Solver configuration; absent fields default to empty collections. -/
structure Config where
  parameters : FlowMap := []
  nodes : List Node := []
  flows : List Flow := []
  constraints : List String := []

/-- The four-way tagged solve outcome (spec §3). -/
inductive SolveResult where
  | solved (flows : FlowMap)
  | underdetermined (definedFlows : FlowMap) (undeterminedFlows : List String)
  | contradictory (balanceErrors : List Violation)
  | evaluationError (message : String)
deriving DecidableEq, Repr

/-- Modelled from the spec: `solve(config)` of the missing `solver.js`.
Evaluate constraints (any failure short-circuits), run the balance solver
with `maxIterations = 2 × |flows|`, then verify: violations win over
completeness. -/
def solve (config : Config) : SolveResult :=
  match evaluateAllConstraints config.constraints config.parameters with
  | Except.error m => SolveResult.evaluationError m
  | Except.ok df0 =>
    let df := solveIteratively config.nodes config.flows df0
      (2 * config.flows.length)
    let errors := verifyBalance config.nodes config.flows df
    if errors.isEmpty then
      if isFullySolved config.flows df then SolveResult.solved df
      else SolveResult.underdetermined df
        (getUndeterminedFlowIds config.flows df)
    else SolveResult.contradictory errors

/-! ## Helper lemmas -/

/-- Lookup after a JS object update: the updated key reads the new value,
any other key is unaffected. -/
theorem lookupFlow_setKey (m : FlowMap) (k : String) (v : JsNum)
    (id : String) :
    lookupFlow (setKey m k v) id =
      if k = id then some v else lookupFlow m id := by
  induction m with
  | nil =>
    simp only [setKey, lookupFlow]
  | cons kv rest ih =>
    obtain ⟨k', v'⟩ := kv
    by_cases hk : k' = k
    · subst hk
      simp only [setKey, if_pos rfl, lookupFlow]
      by_cases hid : k' = id
      · simp [hid]
      · simp [hid]
    · simp only [setKey, if_neg hk, lookupFlow, ih]
      by_cases hid : k' = id
      · subst hid
        have : ¬ k = k' := fun h => hk h.symm
        simp [this]
      · simp [hid]

/-- The body of `solveIteration`, characterized: the pair foldl splits into
a map foldl (each node solved against the pass-start map) and a `changed`
flag that records whether any node produced a value. -/
theorem solveIteration_foldl (flows : List Flow) (definedFlows : FlowMap) :
    ∀ (nodes : List Node) (m : FlowMap) (b : Bool),
      nodes.foldl
        (fun acc node =>
          match solveNodeBalance node flows definedFlows with
          | some s => (setKey acc.1 s.flowId s.value, true)
          | none => acc) (m, b)
      = (nodes.foldl
          (fun acc node =>
            match solveNodeBalance node flows definedFlows with
            | some s => setKey acc s.flowId s.value
            | none => acc) m,
         b || nodes.any
           (fun n => (solveNodeBalance n flows definedFlows).isSome)) := by
  intro nodes
  induction nodes with
  | nil => intro m b; simp
  | cons node rest ih =>
    intro m b
    simp only [List.foldl_cons, List.any_cons]
    cases h : solveNodeBalance node flows definedFlows with
    | none => exact ih m b
    | some s =>
      refine (ih (setKey m s.flowId s.value) true).trans ?_
      simp

/-- A flow solved by `solveNodeBalance` was undefined in the map it was
solved against. -/
theorem solveNodeBalance_new_id (node : Node) (flows : List Flow)
    (definedFlows : FlowMap) (s : Solution)
    (h : solveNodeBalance node flows definedFlows = some s) :
    lookupFlow definedFlows s.flowId = none := by
  simp only [solveNodeBalance] at h
  split at h
  · exact absurd h (by simp)
  · split at h
    next f heq _ =>
      have hf : f ∈ getUndefinedFlows (getNodeFlows node flows).1 definedFlows := by
        rw [heq]; exact List.mem_singleton.mpr rfl
      have hnone := (List.mem_filter.mp hf).2
      cases h
      exact Option.isNone_iff_eq_none.mp hnone
    next f _ heq =>
      have hf : f ∈ getUndefinedFlows (getNodeFlows node flows).2 definedFlows := by
        rw [heq]; exact List.mem_singleton.mpr rfl
      have hnone := (List.mem_filter.mp hf).2
      cases h
      exact Option.isNone_iff_eq_none.mp hnone
    next => exact absurd h (by simp)

/-- Bindings present at the start of a pass survive the pass unchanged. -/
theorem solveIteration_preserves (nodes : List Node) (flows : List Flow)
    (definedFlows : FlowMap) (id : String) (v : JsNum)
    (h : lookupFlow definedFlows id = some v) :
    lookupFlow (solveIteration nodes flows definedFlows).1 id = some v := by
  unfold solveIteration
  suffices hgen : ∀ (ns : List Node) (m : FlowMap) (b : Bool),
      lookupFlow m id = some v →
      lookupFlow
        (ns.foldl
          (fun acc node =>
            match solveNodeBalance node flows definedFlows with
            | some s => (setKey acc.1 s.flowId s.value, true)
            | none => acc) (m, b)).1 id = some v by
    exact hgen nodes definedFlows false h
  intro ns
  induction ns with
  | nil => intro m b hm; exact hm
  | cons node rest ih =>
    intro m b hm
    simp only [List.foldl_cons]
    cases hs : solveNodeBalance node flows definedFlows with
    | none => exact ih m b hm
    | some s =>
      refine ih _ _ ?_
      rw [lookupFlow_setKey]
      have hnew := solveNodeBalance_new_id node flows definedFlows s hs
      have hne : s.flowId ≠ id := by
        intro hcontra
        rw [hcontra, h] at hnew
        exact Option.noConfusion hnew
      simp [hne, hm]

/-- Bindings survive any number of solver iterations unchanged. -/
theorem solveIteratively_preserves (nodes : List Node) (flows : List Flow) :
    ∀ (n : Nat) (definedFlows : FlowMap) (id : String) (v : JsNum),
      lookupFlow definedFlows id = some v →
      lookupFlow (solveIteratively nodes flows definedFlows n) id = some v := by
  intro n
  induction n with
  | zero => intro df id v h; exact h
  | succ k ih =>
    intro df id v h
    simp only [solveIteratively]
    cases hc : (solveIteration nodes flows df).2 with
    | true =>
      rw [if_pos rfl]
      exact ih _ _ _ (solveIteration_preserves nodes flows df id v h)
    | false =>
      rw [if_neg (by simp)]
      exact solveIteration_preserves nodes flows df id v h

/-- Characterization of one pass: the resulting map is the merge, over the
nodes in order, of the results of `solveNodeBalance` against the pass-start
map, and the changed flag records whether any node produced a value. -/
theorem solveIteration_char (nodes : List Node) (flows : List Flow)
    (definedFlows : FlowMap) :
    solveIteration nodes flows definedFlows =
      (nodes.foldl
        (fun acc node =>
          match solveNodeBalance node flows definedFlows with
          | some s => setKey acc s.flowId s.value
          | none => acc) definedFlows,
       nodes.any (fun n => (solveNodeBalance n flows definedFlows).isSome)) := by
  unfold solveIteration
  rw [solveIteration_foldl]
  simp

/-- If no node of the pass produced a value, the map foldl is the identity. -/
theorem foldl_none_fixed (flows : List Flow) (definedFlows : FlowMap) :
    ∀ (nodes : List Node),
      (∀ node ∈ nodes, solveNodeBalance node flows definedFlows = none) →
      nodes.foldl
        (fun acc node =>
          match solveNodeBalance node flows definedFlows with
          | some s => setKey acc s.flowId s.value
          | none => acc) definedFlows = definedFlows := by
  intro nodes
  induction nodes with
  | nil => intro _; rfl
  | cons node rest ih =>
    intro hall
    rw [List.foldl_cons, hall node (List.mem_cons_self node rest)]
    exact ih (fun n hn => hall n (List.mem_cons_of_mem node hn))

/-! ## Claim theorems -/

/-- Claim C2, counterexample. On the chain `A→B→C→D` with only `ab` defined,
one pass solves `bc` at node `B` but leaves `cd` undefined at node `C`, the
node visited later in the same pass, even though node `C` could have solved
`cd` had it seen the value of `bc` solved earlier in the pass (as the
sequential variant written from the spec's words does). The repository's own
test (`balance.test.js`, `should respect max iterations limit`) demands
exactly this behavior of the program: `cd` must still be undefined after one
iteration. Hence within-pass propagation is not sequential. -/
theorem claimC2_counterexample :
    solveIteration [⟨"A"⟩, ⟨"B"⟩, ⟨"C"⟩, ⟨"D"⟩]
      [⟨"ab", "A", "B"⟩, ⟨"bc", "B", "C"⟩, ⟨"cd", "C", "D"⟩]
      [("ab", JsNum.num 100)]
    = ([("ab", JsNum.num 100), ("bc", JsNum.num 100)], true)
  ∧ lookupFlow
      (solveIteration [⟨"A"⟩, ⟨"B"⟩, ⟨"C"⟩, ⟨"D"⟩]
        [⟨"ab", "A", "B"⟩, ⟨"bc", "B", "C"⟩, ⟨"cd", "C", "D"⟩]
        [("ab", JsNum.num 100)]).1 "cd" = none
  ∧ solveNodeBalance ⟨"C"⟩
      [⟨"ab", "A", "B"⟩, ⟨"bc", "B", "C"⟩, ⟨"cd", "C", "D"⟩]
      [("ab", JsNum.num 100), ("bc", JsNum.num 100)]
    = some ⟨"cd", JsNum.num 100⟩
  ∧ lookupFlow
      (solveIterationSeq [⟨"A"⟩, ⟨"B"⟩, ⟨"C"⟩, ⟨"D"⟩]
        [⟨"ab", "A", "B"⟩, ⟨"bc", "B", "C"⟩, ⟨"cd", "C", "D"⟩]
        [("ab", JsNum.num 100)]).1 "cd" = some (JsNum.num 100)
  ∧ lookupFlow
      (solveIteratively [⟨"A"⟩, ⟨"B"⟩, ⟨"C"⟩, ⟨"D"⟩]
        [⟨"ab", "A", "B"⟩, ⟨"bc", "B", "C"⟩, ⟨"cd", "C", "D"⟩]
        [("ab", JsNum.num 100)] 1) "cd" = none := by
  refine ⟨?_, ?_, ?_, ?_, ?_⟩ <;> decide

/-- Claim C2, amended. `solveIteration` visits the nodes exactly once in the
order given and merges every non-null `solveNodeBalance` result into a
running copy of the map, but each node's balance is computed against the
defined-flow map as it stood at the start of the pass (so a value solved by
an earlier node in the same pass is not visible to a later node in that same
pass — propagation across nodes happens only between passes); the returned
changed flag is true iff at least one node produced a value in that pass. -/
theorem claimC2_solveIteration_pass_start (nodes : List Node)
    (flows : List Flow) (definedFlows : FlowMap) :
    solveIteration nodes flows definedFlows =
      (nodes.foldl
        (fun acc node =>
          match solveNodeBalance node flows definedFlows with
          | some s => setKey acc s.flowId s.value
          | none => acc) definedFlows,
       nodes.any (fun n => (solveNodeBalance n flows definedFlows).isSome)) :=
  solveIteration_char nodes flows definedFlows

/-- Claim C5: once a flow id is bound in the defined-flow map, one pass of
`solveIteration` and any number of iterations of `solveIteratively` keep
that binding with the same value — the map only grows. -/
theorem claimC5_monotonic_growth (nodes : List Node) (flows : List Flow)
    (definedFlows : FlowMap) (id : String) (v : JsNum) (n : Nat)
    (h : lookupFlow definedFlows id = some v) :
    lookupFlow (solveIteration nodes flows definedFlows).1 id = some v
  ∧ lookupFlow (solveIteratively nodes flows definedFlows n) id = some v :=
  ⟨solveIteration_preserves nodes flows definedFlows id v h,
   solveIteratively_preserves nodes flows n definedFlows id v h⟩

/-- Claim C5, witness: on the chain `A→B→C→D` with `ab` bound to 100, the
binding of `ab` survives one pass and three iterations unchanged. -/
theorem claimC5_witness :
    lookupFlow
      (solveIteration [⟨"A"⟩, ⟨"B"⟩, ⟨"C"⟩, ⟨"D"⟩]
        [⟨"ab", "A", "B"⟩, ⟨"bc", "B", "C"⟩, ⟨"cd", "C", "D"⟩]
        [("ab", JsNum.num 100)]).1 "ab" = some (JsNum.num 100)
  ∧ lookupFlow
      (solveIteratively [⟨"A"⟩, ⟨"B"⟩, ⟨"C"⟩, ⟨"D"⟩]
        [⟨"ab", "A", "B"⟩, ⟨"bc", "B", "C"⟩, ⟨"cd", "C", "D"⟩]
        [("ab", JsNum.num 100)] 3) "ab" = some (JsNum.num 100) :=
  claimC5_monotonic_growth [⟨"A"⟩, ⟨"B"⟩, ⟨"C"⟩, ⟨"D"⟩]
    [⟨"ab", "A", "B"⟩, ⟨"bc", "B", "C"⟩, ⟨"cd", "C", "D"⟩]
    [("ab", JsNum.num 100)] "ab" (JsNum.num 100) 3 (by decide)

/-- Claim C9: at a fixed point — a map on which an iteration produces no
change — the pass returns its input map, and one additional `solveIteration`
again returns `changed = false` with the same, unchanged map. -/
theorem claimC9_idempotent_fixed_point (nodes : List Node)
    (flows : List Flow) (definedFlows : FlowMap)
    (h : (solveIteration nodes flows definedFlows).2 = false) :
    (solveIteration nodes flows definedFlows).1 = definedFlows
  ∧ solveIteration nodes flows (solveIteration nodes flows definedFlows).1 =
      (definedFlows, false) := by
  have hchar := solveIteration_char nodes flows definedFlows
  have hany : nodes.any
      (fun n => (solveNodeBalance n flows definedFlows).isSome) = false := by
    rw [hchar] at h
    exact h
  have hall : ∀ node ∈ nodes, solveNodeBalance node flows definedFlows = none := by
    intro node hn
    have hx := List.any_eq_false.mp hany node hn
    cases hcase : solveNodeBalance node flows definedFlows with
    | none => rfl
    | some s => rw [hcase] at hx; simp at hx
  have hfst : (solveIteration nodes flows definedFlows).1 = definedFlows := by
    rw [hchar]
    exact foldl_none_fixed flows definedFlows nodes hall
  refine ⟨hfst, ?_⟩
  rw [hfst, hchar, foldl_none_fixed flows definedFlows nodes hall, hany]

/-- Claim C9, witness: the fully-solved chain `A→B→C→D` with all of `ab`,
`bc`, `cd` bound to 100 is a fixed point; the extra pass changes nothing. -/
theorem claimC9_witness :
    (solveIteration [⟨"A"⟩, ⟨"B"⟩, ⟨"C"⟩, ⟨"D"⟩]
      [⟨"ab", "A", "B"⟩, ⟨"bc", "B", "C"⟩, ⟨"cd", "C", "D"⟩]
      [("ab", JsNum.num 100), ("bc", JsNum.num 100), ("cd", JsNum.num 100)]).1
      = [("ab", JsNum.num 100), ("bc", JsNum.num 100), ("cd", JsNum.num 100)]
  ∧ solveIteration [⟨"A"⟩, ⟨"B"⟩, ⟨"C"⟩, ⟨"D"⟩]
      [⟨"ab", "A", "B"⟩, ⟨"bc", "B", "C"⟩, ⟨"cd", "C", "D"⟩]
      (solveIteration [⟨"A"⟩, ⟨"B"⟩, ⟨"C"⟩, ⟨"D"⟩]
        [⟨"ab", "A", "B"⟩, ⟨"bc", "B", "C"⟩, ⟨"cd", "C", "D"⟩]
        [("ab", JsNum.num 100), ("bc", JsNum.num 100),
         ("cd", JsNum.num 100)]).1
      = ([("ab", JsNum.num 100), ("bc", JsNum.num 100), ("cd", JsNum.num 100)],
         false) :=
  claimC9_idempotent_fixed_point [⟨"A"⟩, ⟨"B"⟩, ⟨"C"⟩, ⟨"D"⟩]
    [⟨"ab", "A", "B"⟩, ⟨"bc", "B", "C"⟩, ⟨"cd", "C", "D"⟩]
    [("ab", JsNum.num 100), ("bc", JsNum.num 100), ("cd", JsNum.num 100)]
    (by decide)

/-- Claim C1: `solveNodeBalance` returns null for a source or sink node and
when the number of undefined incident flows (inputs and outputs combined) is
0 or at least 2; with exactly one undefined input it returns that flow id
with value `sum(defined outputs) − sum(other defined inputs)`; with exactly
one undefined output, symmetrically, `sum(defined inputs) − sum(other
defined outputs)`; the value is whatever the subtraction gives, so negative
results pass through unchanged. -/
theorem claimC1_solveNodeBalance_cases (node : Node) (flows : List Flow)
    (definedFlows : FlowMap) :
    (isSourceOrSink (getNodeFlows node flows).1 (getNodeFlows node flows).2
        = true →
      solveNodeBalance node flows definedFlows = none)
  ∧ ((getUndefinedFlows (getNodeFlows node flows).1 definedFlows).length +
       (getUndefinedFlows (getNodeFlows node flows).2 definedFlows).length
        = 0 →
      solveNodeBalance node flows definedFlows = none)
  ∧ (2 ≤ (getUndefinedFlows (getNodeFlows node flows).1 definedFlows).length +
       (getUndefinedFlows (getNodeFlows node flows).2 definedFlows).length →
      solveNodeBalance node flows definedFlows = none)
  ∧ (∀ f : Flow,
      isSourceOrSink (getNodeFlows node flows).1 (getNodeFlows node flows).2
        = false →
      getUndefinedFlows (getNodeFlows node flows).1 definedFlows = [f] →
      getUndefinedFlows (getNodeFlows node flows).2 definedFlows = [] →
      solveNodeBalance node flows definedFlows =
        some ⟨f.id,
          JsNum.sub (sumDefinedFlows (getNodeFlows node flows).2 definedFlows)
                    (sumDefinedFlows (getNodeFlows node flows).1 definedFlows)⟩)
  ∧ (∀ f : Flow,
      isSourceOrSink (getNodeFlows node flows).1 (getNodeFlows node flows).2
        = false →
      getUndefinedFlows (getNodeFlows node flows).1 definedFlows = [] →
      getUndefinedFlows (getNodeFlows node flows).2 definedFlows = [f] →
      solveNodeBalance node flows definedFlows =
        some ⟨f.id,
          JsNum.sub (sumDefinedFlows (getNodeFlows node flows).1 definedFlows)
                    (sumDefinedFlows (getNodeFlows node flows).2 definedFlows)⟩) := by
  refine ⟨?_, ?_, ?_, ?_, ?_⟩
  · intro h
    simp [solveNodeBalance, h]
  · intro h
    have h1 : getUndefinedFlows (getNodeFlows node flows).1 definedFlows = [] :=
      List.length_eq_zero.mp (by omega)
    have h2 : getUndefinedFlows (getNodeFlows node flows).2 definedFlows = [] :=
      List.length_eq_zero.mp (by omega)
    by_cases hss : isSourceOrSink (getNodeFlows node flows).1
        (getNodeFlows node flows).2 <;>
      simp [solveNodeBalance, hss, h1, h2]
  · intro h
    by_cases hss : isSourceOrSink (getNodeFlows node flows).1
        (getNodeFlows node flows).2
    · simp [solveNodeBalance, hss]
    · rcases hA : getUndefinedFlows (getNodeFlows node flows).1 definedFlows
        with _ | ⟨x, _ | ⟨x2, xs⟩⟩ <;>
      rcases hB : getUndefinedFlows (getNodeFlows node flows).2 definedFlows
        with _ | ⟨y, _ | ⟨y2, ys⟩⟩ <;>
      rw [hA, hB] at h <;>
      first
        | (simp [solveNodeBalance, hss, hA, hB]; done)
        | simp at h
  · intro f hss h1 h2
    simp [solveNodeBalance, hss, h1, h2]
  · intro f hss h1 h2
    simp [solveNodeBalance, hss, h1, h2]

/-- Claim C1, witness: at node `B` of the four-flow system of the tests,
with `in2` the only undefined flow the balance solves `in2 = 50`; with
`out2` the only undefined flow and oversubscribed outputs it solves
`out2 = -20`, the negative value returned unchanged. -/
theorem claimC1_witness :
    solveNodeBalance ⟨"B"⟩
      [⟨"in1", "A", "B"⟩, ⟨"in2", "C", "B"⟩, ⟨"out1", "B", "D"⟩,
       ⟨"out2", "B", "E"⟩]
      [("in1", JsNum.num 100), ("out1", JsNum.num 80), ("out2", JsNum.num 70)]
      = some ⟨"in2", JsNum.num 50⟩
  ∧ solveNodeBalance ⟨"B"⟩
      [⟨"in1", "A", "B"⟩, ⟨"in2", "C", "B"⟩, ⟨"out1", "B", "D"⟩,
       ⟨"out2", "B", "E"⟩]
      [("in1", JsNum.num 50), ("in2", JsNum.num 30), ("out1", JsNum.num 100)]
      = some ⟨"out2", JsNum.num (-20)⟩ := by
  constructor
  · have h := (claimC1_solveNodeBalance_cases ⟨"B"⟩
      [⟨"in1", "A", "B"⟩, ⟨"in2", "C", "B"⟩, ⟨"out1", "B", "D"⟩,
       ⟨"out2", "B", "E"⟩]
      [("in1", JsNum.num 100), ("out1", JsNum.num 80),
       ("out2", JsNum.num 70)]).2.2.2.1
      ⟨"in2", "C", "B"⟩ (by decide) (by decide) (by decide)
    exact h.trans (by decide)
  · have h := (claimC1_solveNodeBalance_cases ⟨"B"⟩
      [⟨"in1", "A", "B"⟩, ⟨"in2", "C", "B"⟩, ⟨"out1", "B", "D"⟩,
       ⟨"out2", "B", "E"⟩]
      [("in1", JsNum.num 50), ("in2", JsNum.num 30),
       ("out1", JsNum.num 100)]).2.2.2.2
      ⟨"out2", "B", "E"⟩ (by decide) (by decide) (by decide)
    exact h.trans (by decide)

/-- Claim C4: `verifyNodeBalance` returns null for a source or sink node,
or when any incident flow is undefined, or when the difference of the sums
is within the tolerance; otherwise it returns the violation record naming
the node, the two sums, and `difference = sumInputs − sumOutputs` (negative
when outputs exceed inputs). The tolerance test on a finite difference `q`
is exactly `|q| ≤ ε` with `ε = 1/10000`. -/
theorem claimC4_verifyNodeBalance_cases (node : Node) (flows : List Flow)
    (definedFlows : FlowMap) :
    (isSourceOrSink (getNodeFlows node flows).1 (getNodeFlows node flows).2
        = true →
      verifyNodeBalance node flows definedFlows = none)
  ∧ ((∃ f : Flow,
        (f ∈ (getNodeFlows node flows).1 ∨ f ∈ (getNodeFlows node flows).2) ∧
        lookupFlow definedFlows f.id = none) →
      verifyNodeBalance node flows definedFlows = none)
  ∧ (withinTolerance
        (JsNum.sub (sumDefinedFlows (getNodeFlows node flows).1 definedFlows)
                   (sumDefinedFlows (getNodeFlows node flows).2 definedFlows))
        = true →
      verifyNodeBalance node flows definedFlows = none)
  ∧ (isSourceOrSink (getNodeFlows node flows).1 (getNodeFlows node flows).2
        = false →
      getUndefinedFlows (getNodeFlows node flows).1 definedFlows = [] →
      getUndefinedFlows (getNodeFlows node flows).2 definedFlows = [] →
      withinTolerance
        (JsNum.sub (sumDefinedFlows (getNodeFlows node flows).1 definedFlows)
                   (sumDefinedFlows (getNodeFlows node flows).2 definedFlows))
        = false →
      verifyNodeBalance node flows definedFlows =
        some ⟨node.id,
          sumDefinedFlows (getNodeFlows node flows).1 definedFlows,
          sumDefinedFlows (getNodeFlows node flows).2 definedFlows,
          JsNum.sub (sumDefinedFlows (getNodeFlows node flows).1 definedFlows)
                    (sumDefinedFlows (getNodeFlows node flows).2 definedFlows)⟩)
  ∧ (∀ q : Rat, withinTolerance (JsNum.num q) = true ↔ |q| ≤ epsilon)
  ∧ epsilon = 1 / 10000 := by
  refine ⟨?_, ?_, ?_, ?_, ?_, ?_⟩
  · intro h
    simp [verifyNodeBalance, h]
  · rintro ⟨f, hf, hnone⟩
    by_cases hss : isSourceOrSink (getNodeFlows node flows).1
        (getNodeFlows node flows).2
    · simp [verifyNodeBalance, hss]
    · cases hf with
      | inl hin =>
        have hmem : f ∈ getUndefinedFlows (getNodeFlows node flows).1
            definedFlows :=
          List.mem_filter.mpr ⟨hin, by simp [hnone]⟩
        have hne := List.ne_nil_of_mem hmem
        simp [verifyNodeBalance, hss, List.isEmpty_iff, hne]
      | inr hout =>
        have hmem : f ∈ getUndefinedFlows (getNodeFlows node flows).2
            definedFlows :=
          List.mem_filter.mpr ⟨hout, by simp [hnone]⟩
        have hne := List.ne_nil_of_mem hmem
        simp [verifyNodeBalance, hss, List.isEmpty_iff, hne]
  · intro h
    by_cases hss : isSourceOrSink (getNodeFlows node flows).1
        (getNodeFlows node flows).2
    · simp [verifyNodeBalance, hss]
    · by_cases hu1 : (getUndefinedFlows (getNodeFlows node flows).1
          definedFlows).isEmpty <;>
      by_cases hu2 : (getUndefinedFlows (getNodeFlows node flows).2
          definedFlows).isEmpty <;>
      simp [verifyNodeBalance, hss, hu1, hu2, h]
  · intro hss h1 h2 htol
    simp [verifyNodeBalance, hss, h1, h2, htol]
  · intro q
    simp [withinTolerance]
  · rw [epsilon, Rat.mkRat_eq_div]
    norm_num

/-- Claim C4, witness: at node `B` with inputs 100 and 50 and outputs 90 and
70, the verifier reports the violation `⟨B, 150, 160, -10⟩` — a negative
difference since outputs exceed inputs; and the difference 150 − 160 = −10
is indeed outside the tolerance while a difference of 1/100000 would be
within it. -/
theorem claimC4_witness :
    verifyNodeBalance ⟨"B"⟩
      [⟨"in1", "A", "B"⟩, ⟨"in2", "C", "B"⟩, ⟨"out1", "B", "D"⟩,
       ⟨"out2", "B", "E"⟩]
      [("in1", JsNum.num 100), ("in2", JsNum.num 50), ("out1", JsNum.num 90),
       ("out2", JsNum.num 70)]
      = some ⟨"B", JsNum.num 150, JsNum.num 160, JsNum.num (-10)⟩
  ∧ (withinTolerance (JsNum.num (mkRat 1 100000)) = true ↔
      |mkRat 1 100000| ≤ epsilon) := by
  constructor
  · have h := (claimC4_verifyNodeBalance_cases ⟨"B"⟩
      [⟨"in1", "A", "B"⟩, ⟨"in2", "C", "B"⟩, ⟨"out1", "B", "D"⟩,
       ⟨"out2", "B", "E"⟩]
      [("in1", JsNum.num 100), ("in2", JsNum.num 50), ("out1", JsNum.num 90),
       ("out2", JsNum.num 70)]).2.2.2.1
      (by decide) (by decide) (by decide) (by decide)
    exact h.trans (by decide)
  · exact (claimC4_verifyNodeBalance_cases ⟨"B"⟩ [] []).2.2.2.2.1
      (mkRat 1 100000)

/-- Folding constraints splits over list append once the prefix succeeds. -/
theorem evalConstraintList_append (parameters : FlowMap) :
    ∀ (pre : List String) (df0 df : FlowMap) (rest : List String),
      evalConstraintList parameters df0 pre = Except.ok df →
      evalConstraintList parameters df0 (pre ++ rest) =
        evalConstraintList parameters df rest := by
  intro pre
  induction pre with
  | nil =>
    intro df0 df rest h
    cases h
    rfl
  | cons c cs ih =>
    intro df0 df rest h
    simp only [List.cons_append, evalConstraintList] at h ⊢
    cases hc : constraintStep parameters df0 c with
    | ok df1 =>
      rw [hc] at h
      exact ih df1 df rest h
    | error m =>
      rw [hc] at h
      simp at h

/-- Claim C6, counterexample. The left-side flow id `a` is already bound to
100 in the defined-flow map, yet the constraint `flows.a == 5` is accepted
and silently rebinds `a` to 5 — `evaluateConstraint` never checks that the
left-side flow is as-yet-undefined. -/
theorem claimC6_counterexample :
    evaluateConstraint "flows.a == 5" [] [("a", JsNum.num 100)] =
      Except.ok [("a", JsNum.num 5)] := rfl

/-- Claim C6, amended. `evaluateConstraint` fails with the
`LeftSideNotFlowReference` message for every left side that does not match
the anchored pattern `flows.<id>`; however a constraint whose left side
names a flow id already present in the defined-flow map is accepted and
silently rebinds that id to the newly evaluated value. -/
theorem claimC6_left_side (c : String) (parameters definedFlows : FlowMap)
    (l r : String)
    (hp : parseConstraint c = Except.ok (l, r))
    (hm : matchFlowRef l = none) :
    evaluateConstraint c parameters definedFlows =
      Except.error "Left side of constraint must be a flow reference (flows.id)"
  ∧ (∀ (df : FlowMap) (v : JsNum), lookupFlow df "a" = some v →
      evaluateConstraint "flows.a == 5" parameters df =
        Except.ok (setKey df "a" (JsNum.num 5))
      ∧ lookupFlow (setKey df "a" (JsNum.num 5)) "a" = some (JsNum.num 5)) := by
  constructor
  · simp only [evaluateConstraint, hp, hm]
  · intro df v _
    refine ⟨rfl, ?_⟩
    rw [lookupFlow_setKey]
    simp

/-- Claim C6, witness: `parameters.x == 100` parses but its left side is not
a flow reference, so evaluation fails with the left-side error, as does the
spec's example `flows.x + 1 == 100`. -/
theorem claimC6_witness :
    parseConstraint "parameters.x == 100" =
      Except.ok ("parameters.x", "100")
  ∧ evaluateConstraint "parameters.x == 100" [] [] =
      Except.error "Left side of constraint must be a flow reference (flows.id)"
  ∧ evaluateConstraint "flows.x + 1 == 100" [] [] =
      Except.error "Left side of constraint must be a flow reference (flows.id)" := by
  refine ⟨rfl, ?_, ?_⟩
  · exact (claimC6_left_side "parameters.x == 100" [] [] "parameters.x" "100"
      rfl rfl).1
  · exact (claimC6_left_side "flows.x + 1 == 100" [] [] "flows.x + 1" "100"
      rfl rfl).1

/-- Claim C7: when a constraint fails to evaluate, `evaluateAllConstraints`
stops with an error message wrapping the constraint's literal text around
the underlying cause, and `solve` returns exactly the `evaluationError`
variant with that message — a variant that carries no defined-flow map, so
balance solving and verification never run and no partial state escapes. -/
theorem claimC7_short_circuit (pre rest : List String) (c : String)
    (parameters df : FlowMap) (m : String)
    (hpre : evalConstraintList parameters [] pre = Except.ok df)
    (hc : evaluateConstraint c parameters df = Except.error m) :
    evaluateAllConstraints (pre ++ c :: rest) parameters =
      Except.error ("Error evaluating constraint \"" ++ c ++ "\": " ++ m)
  ∧ ∀ (nodes : List Node) (flows : List Flow),
      solve ⟨parameters, nodes, flows, pre ++ c :: rest⟩ =
        SolveResult.evaluationError
          ("Error evaluating constraint \"" ++ c ++ "\": " ++ m) := by
  have hall : evaluateAllConstraints (pre ++ c :: rest) parameters =
      Except.error ("Error evaluating constraint \"" ++ c ++ "\": " ++ m) := by
    unfold evaluateAllConstraints
    rw [evalConstraintList_append parameters pre [] df (c :: rest) hpre]
    simp only [evalConstraintList, constraintStep, hc]
  refine ⟨hall, ?_⟩
  intro nodes flows
  simp only [solve, hall]

/-- Claim C7, witness: the second of three constraints references an
undefined flow; the whole evaluation reports that constraint's literal text
with the underlying cause, and `solve` short-circuits to that error. -/
theorem claimC7_witness :
    evaluateAllConstraints
      ["flows.x == 10", "flows.y == flows.undefined", "flows.z == 30"] [] =
      Except.error
        "Error evaluating constraint \"flows.y == flows.undefined\": Flow undefined not yet defined"
  ∧ solve ⟨[], [⟨"A"⟩, ⟨"B"⟩], [⟨"ab", "A", "B"⟩],
      ["flows.x == 10", "flows.y == flows.undefined", "flows.z == 30"]⟩ =
      SolveResult.evaluationError
        "Error evaluating constraint \"flows.y == flows.undefined\": Flow undefined not yet defined" := by
  have h := claimC7_short_circuit ["flows.x == 10"] ["flows.z == 30"]
    "flows.y == flows.undefined" [] [("x", JsNum.num 10)]
    "Flow undefined not yet defined" rfl rfl
  exact ⟨h.1, h.2 [⟨"A"⟩, ⟨"B"⟩] [⟨"ab", "A", "B"⟩]⟩

/-- Claim C8: when the substituted token stream does not evaluate as an
arithmetic expression, `evaluateExpression` fails with the
`Cannot evaluate expression` message naming the expression; but division by
zero is not such a failure — it produces `Infinity` (or `NaN` for `0/0`,
`-Infinity` for a negative numerator) without raising, and that value flows
back to the caller, e.g. into the binding made by `evaluateConstraint`. -/
theorem claimC8_invalid_expression (expr : String)
    (parameters definedFlows : FlowMap) (ts1 ts2 : List Tok)
    (h1 : substParams parameters (tokenize expr) = Except.ok ts1)
    (h2 : substFlows definedFlows ts1 = Except.ok ts2)
    (h3 : evalToks ts2 = none) :
    evaluateExpression expr parameters definedFlows =
      Except.error ("Cannot evaluate expression: " ++ expr)
  ∧ (∀ p f : FlowMap, evaluateExpression "1 / 0" p f = Except.ok JsNum.posInf)
  ∧ (∀ p f : FlowMap, evaluateExpression "0 / 0" p f = Except.ok JsNum.nan)
  ∧ (∀ p f : FlowMap,
      evaluateExpression "(0 - 1) / 0" p f = Except.ok JsNum.negInf)
  ∧ (∀ p f : FlowMap,
      evaluateConstraint "flows.q == 1 / 0" p f =
        Except.ok (setKey f "q" JsNum.posInf)) := by
  refine ⟨?_, fun p f => rfl, fun p f => rfl, fun p f => rfl, fun p f => rfl⟩
  simp only [evaluateExpression, h1, h2, h3]

/-- Claim C8, witness: `this is not valid` tokenizes to word tokens that no
substitution touches and arithmetic evaluation rejects, producing the
`Cannot evaluate expression` error. -/
theorem claimC8_witness :
    evaluateExpression "this is not valid" [] [] =
      Except.error "Cannot evaluate expression: this is not valid" :=
  (claimC8_invalid_expression "this is not valid" [] []
    [Tok.bad, Tok.bad, Tok.bad, Tok.bad] [Tok.bad, Tok.bad, Tok.bad, Tok.bad]
    rfl rfl rfl).1

/-- Claim C10: constraint evaluation never consults the topology — the flow
list is not even an argument of `evaluateConstraint` or
`evaluateAllConstraints`. A constraint binding a flow id that appears in no
flow of any given topology is accepted without error and its binding is
added to the returned map just like any other. -/
theorem claimC10_no_topology_check (topology : List Flow)
    (parameters definedFlows : FlowMap)
    (_hghost : ∀ f ∈ topology, f.id ≠ "ghost") :
    evaluateConstraint "flows.ghost == 5" parameters definedFlows =
      Except.ok (setKey definedFlows "ghost" (JsNum.num 5))
  ∧ evaluateAllConstraints ["flows.ghost == 5"] parameters =
      Except.ok [("ghost", JsNum.num 5)] :=
  ⟨rfl, rfl⟩

/-- Claim C10, witness: with the one-flow topology `ab` (which nowhere
mentions `ghost`), the constraint on `flows.ghost` is accepted and the
binding appended to the map. -/
theorem claimC10_witness :
    evaluateConstraint "flows.ghost == 5" [] [("other", JsNum.num 1)] =
      Except.ok [("other", JsNum.num 1), ("ghost", JsNum.num 5)]
  ∧ (∀ f ∈ ([⟨"ab", "A", "B"⟩] : List Flow), f.id ≠ "ghost") := by
  have h := claimC10_no_topology_check [⟨"ab", "A", "B"⟩] []
    [("other", JsNum.num 1)] (by decide)
  exact ⟨h.1, by decide⟩

/-- Claim C3: once the constraints evaluate successfully, `solve` reports
`Contradictory` with the full violation list — collected per node in
topology node order — whenever the verifier finds any violation, regardless
of completeness of the defined-flow map, and reports `Underdetermined` only
when the violation list is empty. -/
theorem claimC3_contradiction_priority (config : Config) (df0 : FlowMap)
    (h : evaluateAllConstraints config.constraints config.parameters =
      Except.ok df0) :
    (verifyBalance config.nodes config.flows
        (solveIteratively config.nodes config.flows df0
          (2 * config.flows.length)) ≠ [] →
      solve config = SolveResult.contradictory
        (verifyBalance config.nodes config.flows
          (solveIteratively config.nodes config.flows df0
            (2 * config.flows.length))))
  ∧ verifyBalance config.nodes config.flows
        (solveIteratively config.nodes config.flows df0
          (2 * config.flows.length)) =
      config.nodes.filterMap (fun n => verifyNodeBalance n config.flows
        (solveIteratively config.nodes config.flows df0
          (2 * config.flows.length)))
  ∧ (∀ (dfm : FlowMap) (u : List String),
      solve config = SolveResult.underdetermined dfm u →
      verifyBalance config.nodes config.flows
        (solveIteratively config.nodes config.flows df0
          (2 * config.flows.length)) = []) := by
  refine ⟨?_, rfl, ?_⟩
  · intro hne
    have hemp : ¬ ((verifyBalance config.nodes config.flows
        (solveIteratively config.nodes config.flows df0
          (2 * config.flows.length))).isEmpty = true) := by
      intro hh
      exact hne (List.isEmpty_iff.mp hh)
    simp only [solve, h]
    rw [if_neg hemp]
  · intro dfm u hu
    by_cases hemp : (verifyBalance config.nodes config.flows
        (solveIteratively config.nodes config.flows df0
          (2 * config.flows.length))).isEmpty = true
    · exact List.isEmpty_iff.mp hemp
    · simp only [solve, h] at hu
      rw [if_neg hemp] at hu
      exact absurd hu (by simp)

/-- Claim C3, witness: a diamond topology whose constraints violate balance
at node `B` while `ac` and `cd` stay undefined — the system is both
contradictory and underdetermined, and `solve` reports `Contradictory`. -/
theorem claimC3_witness :
    solve ⟨[], [⟨"A"⟩, ⟨"B"⟩, ⟨"C"⟩, ⟨"D"⟩],
      [⟨"ab", "A", "B"⟩, ⟨"ac", "A", "C"⟩, ⟨"bd", "B", "D"⟩,
       ⟨"cd", "C", "D"⟩],
      ["flows.ab == 100", "flows.bd == 50"]⟩ =
      SolveResult.contradictory
        [⟨"B", JsNum.num 100, JsNum.num 50, JsNum.num 50⟩]
  ∧ isFullySolved
      [⟨"ab", "A", "B"⟩, ⟨"ac", "A", "C"⟩, ⟨"bd", "B", "D"⟩, ⟨"cd", "C", "D"⟩]
      (solveIteratively [⟨"A"⟩, ⟨"B"⟩, ⟨"C"⟩, ⟨"D"⟩]
        [⟨"ab", "A", "B"⟩, ⟨"ac", "A", "C"⟩, ⟨"bd", "B", "D"⟩,
         ⟨"cd", "C", "D"⟩]
        [("ab", JsNum.num 100), ("bd", JsNum.num 50)] 8) = false := by
  have h := (claimC3_contradiction_priority
    ⟨[], [⟨"A"⟩, ⟨"B"⟩, ⟨"C"⟩, ⟨"D"⟩],
      [⟨"ab", "A", "B"⟩, ⟨"ac", "A", "C"⟩, ⟨"bd", "B", "D"⟩,
       ⟨"cd", "C", "D"⟩],
      ["flows.ab == 100", "flows.bd == 50"]⟩
    [("ab", JsNum.num 100), ("bd", JsNum.num 50)] rfl).1 (by decide)
  exact ⟨h.trans (by decide), by decide⟩

end Sleeper

